import Mathlib

/-!
Verification of the Products REST API service (src/service/routes.py) against
its natural-language specification. The HTTP layer is embedded shallowly: a
request is headers, a body and a URL root; a handler is a pure function from a
request and the persistence store to a response and the next store. The
Product model (service/models.py) is consumed through collaborators that are
modelled from the spec where the code is not in the repository excerpt.
-/

set_option maxHeartbeats 1000000

namespace Products

/-- JSON values, the wire representation used by the service. -/
inductive Json where
  | jstr : String → Json
  | jnum : Rat → Json
  | jbool : Bool → Json
  | jnull : Json
  | jarr : List Json → Json
  | jobj : List (String × Json) → Json

/-- Field lookup in a JSON object (association list by key). -/
def Json.getField (j : Json) (key : String) : Option Json :=
  match j with
  | .jobj kvs => kvs.lookup key
  | _ => none

/-- The mutable attributes of a Product record; the server-assigned integer
`id` is kept separately by the store, since it is never taken from a body. -/
structure ProductFields where
  name : String
  sku : String
  description : String
  price : Rat
  image_url : String
deriving DecidableEq, Repr

/-- Modelled from the spec: `Product.serialize` (service/models.py is not in
the repository excerpt). Produces the JSON shape
with keys id, name, sku, description, price, image_url. -/
def Product.serialize (id : Nat) (p : ProductFields) : Json :=
  .jobj [("id", .jnum (id : Rat)),
         ("name", .jstr p.name),
         ("sku", .jstr p.sku),
         ("description", .jstr p.description),
         ("price", .jnum p.price),
         ("image_url", .jstr p.image_url)]

/-- Modelled from the spec: `Product.deserialize` (service/models.py is not in
the repository excerpt). Populates all required fields from an input mapping
or fails with a validation error; it does not set `id` (server-assigned), so
any id key in the body is ignored. -/
def Product.deserialize (data : Json) : Except String ProductFields :=
  match data with
  | .jobj kvs =>
    match kvs.lookup "name", kvs.lookup "sku", kvs.lookup "description",
          kvs.lookup "price", kvs.lookup "image_url" with
    | some (.jstr n), some (.jstr s), some (.jstr d),
      some (.jnum p), some (.jstr u) =>
        .ok { name := n, sku := s, description := d, price := p, image_url := u }
    | _, _, _, _, _ => .error "Invalid Product: missing or invalid field in body"
  | _ => .error "Invalid Product: body of request contained bad or no data"

/-- The persistence store: durable rows keyed by id, plus the auto-increment
counter used to assign the next id on creation. -/
structure Store where
  rows : List (Nat × ProductFields)
  nextId : Nat
deriving DecidableEq, Repr

/-- The first row with the given id, if any. -/
def findRow (product_id : Nat) : List (Nat × ProductFields) → Option ProductFields
  | [] => none
  | kv :: rest => if kv.1 = product_id then some kv.2 else findRow product_id rest

/-- Rewrites every row with the given id in place. -/
def updateRows (product_id : Nat) (p : ProductFields) :
    List (Nat × ProductFields) → List (Nat × ProductFields)
  | [] => []
  | kv :: rest =>
    if kv.1 = product_id then (product_id, p) :: updateRows product_id p rest
    else kv :: updateRows product_id p rest

/-- Removes every row with the given id. -/
def deleteRows (product_id : Nat) :
    List (Nat × ProductFields) → List (Nat × ProductFields)
  | [] => []
  | kv :: rest =>
    if kv.1 = product_id then deleteRows product_id rest
    else kv :: deleteRows product_id rest

/-- Modelled from the spec: the collaborator `find(id) -> Product or absent`
(service/models.py is not in the repository excerpt). -/
def Store.find (s : Store) (product_id : Nat) : Option ProductFields :=
  findRow product_id s.rows

/-- Modelled from the spec: the collaborator `create()` assigns a fresh
auto-increment id and writes the new durable record. -/
def Store.create (s : Store) (p : ProductFields) : Nat × Store :=
  (s.nextId, { rows := s.rows ++ [(s.nextId, p)], nextId := s.nextId + 1 })

/-- Modelled from the spec: the collaborator `update()` rewrites the existing
record with the same id in place. -/
def Store.update (s : Store) (product_id : Nat) (p : ProductFields) : Store :=
  { s with rows := updateRows product_id p s.rows }

/-- Modelled from the spec: the collaborator `delete()` removes the durable
record by id, if present. -/
def Store.delete (s : Store) (product_id : Nat) : Store :=
  { s with rows := deleteRows product_id s.rows }

/-- A request body: valid JSON, a body that is not valid JSON (the framework
rejects it with 400 when parsed), or no body at all. -/
inductive Body where
  | empty : Body
  | notJson : Body
  | json : Json → Body

/-- An incoming HTTP request: its headers, its body, and the URL root
(scheme plus host) that url_for uses to build external URLs. -/
structure Request where
  headers : List (String × String)
  body : Body
  urlRoot : String

/-- An HTTP response: status code, JSON body (error messages are carried as a
JSON string), and the optional Location header. -/
structure Response where
  status : Nat
  body : Json
  location : Option String

/-- The response produced by abort(status, message). -/
def errorResponse (st : Nat) (msg : String) : Response :=
  { status := st, body := .jstr msg, location := none }

/-- The apostrophe character, used in the not-found message format. -/
def squot : String := String.mk [Char.ofNat 39]

/-- The not-found message of the Read and Update handlers
(routes.py lines 126 and 149). -/
def notFoundMessage (product_id : Nat) : String :=
  "Product with id " ++ squot ++ toString product_id ++ squot ++ " was not found."

/-- check_content_type (routes.py lines 173 to 189): abort 415 when the
Content-Type header is absent; return when it equals the expected type
exactly; otherwise abort 415. -/
def check_content_type (content_type : String) (req : Request) : Option Response :=
  match req.headers.lookup "Content-Type" with
  | none => some (errorResponse 415 ("Content-Type must be " ++ content_type))
  | some v =>
    if v = content_type then none
    else some (errorResponse 415 ("Content-Type must be " ++ content_type))

/-- url_for of the get_products endpoint with external set to true
(routes.py line 101): the URL root followed by the route path. -/
def url_for_get_products (req : Request) (product_id : Nat) : String :=
  req.urlRoot ++ "/products/" ++ toString product_id

/-- index (routes.py lines 33 to 69): the fixed api_details document. -/
def endpointEntry (m p d : String) : Json :=
  .jobj [("method", .jstr m), ("path", .jstr p), ("description", .jstr d)]

/-- The api_details document returned by the Index handler
(routes.py lines 36 to 68). -/
def api_details : Json :=
  .jobj [("name", .jstr "Products REST API Service"),
         ("version", .jstr "0.1.0"),
         ("description", .jstr "This is the products service API. Below is how you use it."),
         ("endpoints", .jarr
           [endpointEntry "POST" "/products"
              "Creates a new product with the data in the body that is posted",
            endpointEntry "GET" "/products/<product_id>"
              "Returns a product based on its id",
            endpointEntry "GET" "/products"
              "Returns a list of all products",
            endpointEntry "PUT" "/products/<product_id>"
              "Updates a product based on its id with the data in the body that is posted",
            endpointEntry "DELETE" "/products/<product_id>"
              "Deletes a product based on its id"]),
         ("status", .jstr "online")]

/-- index (routes.py lines 33 to 69): returns the fixed document with 200. -/
def index (_req : Request) (s : Store) : Response × Store :=
  ({ status := 200, body := api_details, location := none }, s)

/-- create_products (routes.py lines 80 to 107): guard the content type,
parse and deserialize the body, persist, then answer 201 with the serialized
product and the external Location URL. A body that is not valid JSON is
rejected by get_json with 400; a deserialization failure is surfaced as 400
(spec section 4.3, the model and error handlers are not in the excerpt). -/
def create_products (req : Request) (s : Store) : Response × Store :=
  match check_content_type "application/json" req with
  | some err => (err, s)
  | none =>
    match req.body with
    | .json data =>
      match Product.deserialize data with
      | .ok fields =>
        ({ status := 201,
           body := Product.serialize (s.create fields).1 fields,
           location := some (url_for_get_products req (s.create fields).1) },
         (s.create fields).2)
      | .error msg => (errorResponse 400 msg, s)
    | _ => (errorResponse 400 "Bad Request: the body is not valid JSON", s)

/-- get_products (routes.py lines 113 to 130): find by id, abort 404 with the
not-found message when absent, else answer 200 with the serialized product. -/
def get_products (product_id : Nat) (s : Store) : Response × Store :=
  match s.find product_id with
  | none => (errorResponse 404 (notFoundMessage product_id), s)
  | some product =>
    ({ status := 200, body := Product.serialize product_id product, location := none }, s)

/-- update_products (routes.py lines 136 to 159): find by id and abort 404
before the content-type guard runs; then guard, parse, deserialize onto the
found product (its id is preserved), persist the rewrite, answer 200. -/
def update_products (product_id : Nat) (req : Request) (s : Store) : Response × Store :=
  match s.find product_id with
  | none => (errorResponse 404 (notFoundMessage product_id), s)
  | some _found =>
    match check_content_type "application/json" req with
    | some err => (err, s)
    | none =>
      match req.body with
      | .json data =>
        match Product.deserialize data with
        | .ok fields =>
          ({ status := 200,
             body := Product.serialize product_id fields,
             location := none },
           s.update product_id fields)
        | .error msg => (errorResponse 400 msg, s)
      | _ => (errorResponse 400 "Bad Request: the body is not valid JSON", s)

/-- Modelled from the spec: the DELETE handler (spec section 4.6; it is
advertised by the index document but not implemented in
src/service/routes.py). Idempotent: always answers 204, removing the durable
record when one is present. -/
def delete_products (product_id : Nat) (s : Store) : Response × Store :=
  ({ status := 204, body := .jnull, location := none }, s.delete product_id)

/-! Concrete fixtures used by witnesses and counterexamples. -/

/-- The example payload of spec section 8. -/
def examplePayload : Json :=
  .jobj [("name", .jstr "Widget"),
         ("sku", .jstr "AB123CD"),
         ("description", .jstr "basic widget"),
         ("price", .jnum ((999 : Rat) / 100)),
         ("image_url", .jstr "http://x/img.png")]

/-- The fields carried by the example payload. -/
def exampleFields : ProductFields :=
  { name := "Widget", sku := "AB123CD", description := "basic widget",
    price := (999 : Rat) / 100, image_url := "http://x/img.png" }

/-- An update payload that also carries an id key, which deserialize ignores. -/
def updatePayload : Json :=
  .jobj [("id", .jnum 42),
         ("name", .jstr "Gadget"),
         ("sku", .jstr "ZZ999XX"),
         ("description", .jstr "deluxe gadget"),
         ("price", .jnum 12),
         ("image_url", .jstr "http://x/img2.png")]

/-- The fields carried by the update payload. -/
def updatedFields : ProductFields :=
  { name := "Gadget", sku := "ZZ999XX", description := "deluxe gadget",
    price := 12, image_url := "http://x/img2.png" }

/-- A well-formed request carrying the example payload. -/
def exampleRequest : Request :=
  { headers := [("Content-Type", "application/json")],
    body := .json examplePayload,
    urlRoot := "http://localhost" }

/-- A request with no Content-Type header. -/
def reqNoContentType : Request :=
  { headers := [], body := .json examplePayload, urlRoot := "http://localhost" }

/-- A request whose Content-Type carries a media-type parameter, so it is not
string-equal to application/json. -/
def reqJsonCharset : Request :=
  { headers := [("Content-Type", "application/json; charset=utf-8")],
    body := .json examplePayload, urlRoot := "http://localhost" }

/-- A request with the right Content-Type but a body that is not valid JSON. -/
def reqBadBody : Request :=
  { headers := [("Content-Type", "application/json")],
    body := .notJson, urlRoot := "http://localhost" }

/-- A request carrying the update payload. -/
def updateRequest : Request :=
  { headers := [("Content-Type", "application/json")],
    body := .json updatePayload, urlRoot := "http://localhost" }

/-- The empty store, with auto-increment starting at 1. -/
def store0 : Store := { rows := [], nextId := 1 }

/-- A store holding the example product under id 1. -/
def store1 : Store := { rows := [(1, exampleFields)], nextId := 2 }

/-! Helper lemmas about the content-type guard and the row operations. -/

/-- The guard only ever aborts with the 415 error response. -/
theorem check_content_type_some_eq (ct : String) (req : Request) (err : Response)
    (h : check_content_type ct req = some err) :
    err = errorResponse 415 ("Content-Type must be " ++ ct) := by
  unfold check_content_type at h
  cases hh : req.headers.lookup "Content-Type" with
  | none => rw [hh] at h; exact (Option.some.inj h).symm
  | some v =>
    rw [hh] at h
    by_cases hv : v = ct
    · simp [hv] at h
    · simp [hv] at h; exact h.symm

/-- The guard aborts 415 whenever the header is absent or not string-equal. -/
theorem check_content_type_fails (ct : String) (req : Request)
    (h : req.headers.lookup "Content-Type" ≠ some ct) :
    check_content_type ct req =
      some (errorResponse 415 ("Content-Type must be " ++ ct)) := by
  unfold check_content_type
  cases hh : req.headers.lookup "Content-Type" with
  | none => rfl
  | some v =>
    have hv : v ≠ ct := fun e => h (by rw [hh, e])
    simp [hv]

/-- The guard passes exactly on a string-equal header. -/
theorem check_content_type_passes (ct : String) (req : Request)
    (h : req.headers.lookup "Content-Type" = some ct) :
    check_content_type ct req = none := by
  unfold check_content_type
  rw [h]
  simp

/-- Rewriting rows by id leaves the record with that id holding the new
fields, provided a record with that id was present. -/
theorem findRow_updateRows (product_id : Nat) (p : ProductFields)
    (rows : List (Nat × ProductFields)) (h : (findRow product_id rows).isSome) :
    findRow product_id (updateRows product_id p rows) = some p := by
  induction rows with
  | nil => simp [findRow] at h
  | cons kv rest ih =>
    by_cases hk : kv.1 = product_id
    · simp [updateRows, findRow, hk]
    · rw [findRow, if_neg hk] at h
      rw [updateRows, if_neg hk, findRow, if_neg hk]
      exact ih h

/-- After removing a row by id, no record with that id remains. -/
theorem findRow_deleteRows (product_id : Nat) (rows : List (Nat × ProductFields)) :
    findRow product_id (deleteRows product_id rows) = none := by
  induction rows with
  | nil => rfl
  | cons kv rest ih =>
    by_cases hk : kv.1 = product_id
    · rw [deleteRows, if_pos hk]; exact ih
    · rw [deleteRows, if_neg hk, findRow, if_neg hk]; exact ih

/-- Removing an absent id leaves the rows unchanged. -/
theorem deleteRows_absent (product_id : Nat) (rows : List (Nat × ProductFields))
    (h : findRow product_id rows = none) :
    deleteRows product_id rows = rows := by
  induction rows with
  | nil => rfl
  | cons kv rest ih =>
    by_cases hk : kv.1 = product_id
    · rw [findRow, if_pos hk] at h; exact absurd h (by simp)
    · rw [findRow, if_neg hk] at h
      rw [deleteRows, if_neg hk, ih h]

/-- Every Create response status is 201, 400 or 415. -/
theorem create_products_status_cases (req : Request) (s : Store) :
    (create_products req s).1.status = 201 ∨ (create_products req s).1.status = 400 ∨
      (create_products req s).1.status = 415 := by
  cases hct : check_content_type "application/json" req with
  | some err =>
    simp [create_products, hct, check_content_type_some_eq _ _ _ hct, errorResponse]
  | none =>
    cases hb : req.body with
    | json data =>
      cases hde : Product.deserialize data with
      | ok fields => simp [create_products, hct, hb, hde]
      | error msg => simp [create_products, hct, hb, hde, errorResponse]
    | empty => simp [create_products, hct, hb, errorResponse]
    | notJson => simp [create_products, hct, hb, errorResponse]

/-- Every Update response status is 200, 400, 404 or 415. -/
theorem update_products_status_cases (product_id : Nat) (req : Request) (s : Store) :
    (update_products product_id req s).1.status = 200 ∨
    (update_products product_id req s).1.status = 400 ∨
    (update_products product_id req s).1.status = 404 ∨
    (update_products product_id req s).1.status = 415 := by
  cases hf : s.find product_id with
  | none => simp [update_products, hf, errorResponse]
  | some p0 =>
    cases hct : check_content_type "application/json" req with
    | some err =>
      simp [update_products, hf, hct, check_content_type_some_eq _ _ _ hct, errorResponse]
    | none =>
      cases hb : req.body with
      | json data =>
        cases hde : Product.deserialize data with
        | ok fields => simp [update_products, hf, hct, hb, hde]
        | error msg => simp [update_products, hf, hct, hb, hde, errorResponse]
      | empty => simp [update_products, hf, hct, hb, errorResponse]
      | notJson => simp [update_products, hf, hct, hb, errorResponse]

/-! Claim theorems. -/

/-- C1 counterexample: the example POST of spec section 8 on the empty store
succeeds with 201 and assigns id 1, but its Location header is the external
URL produced by url_for with external set — scheme and host included — so it
is not equal to the bare path /products/1 as claimed. -/
theorem c1_counterexample :
    (create_products exampleRequest store0).1.status = 201 ∧
    (create_products exampleRequest store0).1.location =
      some "http://localhost/products/1" ∧
    (create_products exampleRequest store0).1.location ≠ some "/products/1" := by
  refine ⟨rfl, rfl, ?_⟩
  have hl : (create_products exampleRequest store0).1.location =
      some "http://localhost/products/1" := rfl
  rw [hl]
  intro hcontra
  exact absurd (Option.some.inj hcontra) (by decide)

/-- C1 (amended): every successful POST — content type accepted, body valid
JSON that deserializes — answers 201 with body equal to the serialized
product under the newly assigned id, and a Location header equal to the
external retrieval URL, the request URL root followed by /products/<id> for
that id (not the bare relative path /products/<id>). -/
theorem c1_create_products_success (req : Request) (s : Store)
    (data : Json) (fields : ProductFields)
    (hct : check_content_type "application/json" req = none)
    (hbody : req.body = .json data)
    (hde : Product.deserialize data = .ok fields) :
    (create_products req s).1.status = 201 ∧
    (create_products req s).1.body = Product.serialize s.nextId fields ∧
    (create_products req s).1.location =
      some (req.urlRoot ++ "/products/" ++ toString s.nextId) := by
  refine ⟨?_, ?_, ?_⟩ <;>
    simp [create_products, hct, hbody, hde, Store.create, url_for_get_products]

/-- C1 witness: the amended contract at the example request of spec section 8
on the empty store. -/
theorem c1_witness :
    (create_products exampleRequest store0).1.status = 201 ∧
    (create_products exampleRequest store0).1.body =
      Product.serialize store0.nextId exampleFields ∧
    (create_products exampleRequest store0).1.location =
      some (exampleRequest.urlRoot ++ "/products/" ++ toString store0.nextId) :=
  c1_create_products_success exampleRequest store0 examplePayload exampleFields rfl rfl rfl

/-- C2: a PUT on an id with no product answers 404 with the same message
format as Read, for every request — in particular with an absent or wrong
Content-Type header, since the lookup aborts before the guard runs — and the
store is unchanged. -/
theorem c2_update_products_not_found (product_id : Nat) (req : Request) (s : Store)
    (h : s.find product_id = none) :
    update_products product_id req s = (errorResponse 404 (notFoundMessage product_id), s) := by
  unfold update_products
  rw [h]

/-- C2 witness: PUT of id 9999 on the empty store, with no Content-Type
header, answers 404 and leaves the store unchanged. -/
theorem c2_witness :
    update_products 9999 reqNoContentType store0 =
      (errorResponse 404 (notFoundMessage 9999), store0) :=
  c2_update_products_not_found 9999 reqNoContentType store0 rfl

/-- C3: the Content-Type guard aborts 415 with a message naming the expected
type when the header is absent, and when it is present but not exactly
string-equal to the expected type; it returns none (no value) exactly when
the header equals the expected type. -/
theorem c3_check_content_type_guard (content_type : String) (req : Request) :
    (req.headers.lookup "Content-Type" = none →
      check_content_type content_type req =
        some (errorResponse 415 ("Content-Type must be " ++ content_type))) ∧
    (∀ v, req.headers.lookup "Content-Type" = some v → v ≠ content_type →
      check_content_type content_type req =
        some (errorResponse 415 ("Content-Type must be " ++ content_type))) ∧
    (req.headers.lookup "Content-Type" = some content_type →
      check_content_type content_type req = none) := by
  refine ⟨fun h => ?_, fun v hv hne => ?_, fun h => check_content_type_passes _ _ h⟩
  · unfold check_content_type
    rw [h]
  · exact check_content_type_fails _ _ (fun e => hne (Option.some.inj (hv ▸ e).symm).symm)

/-- C3 witness: the guard rejects a request with no Content-Type header,
rejects application/json with a charset parameter (no semantic media-type
matching), and passes an exact application/json header. -/
theorem c3_witness :
    check_content_type "application/json" reqNoContentType =
      some (errorResponse 415 "Content-Type must be application/json") ∧
    check_content_type "application/json" reqJsonCharset =
      some (errorResponse 415 "Content-Type must be application/json") ∧
    check_content_type "application/json" exampleRequest = none :=
  ⟨(c3_check_content_type_guard "application/json" reqNoContentType).1 rfl,
   (c3_check_content_type_guard "application/json" reqJsonCharset).2.1
     "application/json; charset=utf-8" rfl (by decide),
   (c3_check_content_type_guard "application/json" exampleRequest).2.2 rfl⟩

/-- C4: a GET of a missing id answers 404 with the message
Product with id (quoted id) was not found., and a GET of a present id answers
200 with the serialized product; the store is unchanged in both cases. -/
theorem c4_get_products_contract (product_id : Nat) (s : Store) :
    (s.find product_id = none →
      get_products product_id s = (errorResponse 404 (notFoundMessage product_id), s)) ∧
    (∀ p, s.find product_id = some p →
      get_products product_id s =
        ({ status := 200, body := Product.serialize product_id p, location := none }, s)) := by
  constructor
  · intro h
    unfold get_products
    rw [h]
  · intro p h
    unfold get_products
    rw [h]

/-- C4 witness: GET of id 9999 on the empty store answers 404 with the exact
message of spec section 8, and GET of id 1 on a store holding it answers 200
with the serialized product. -/
theorem c4_witness :
    get_products 9999 store0 = (errorResponse 404 (notFoundMessage 9999), store0) ∧
    notFoundMessage 9999 =
      "Product with id " ++ squot ++ "9999" ++ squot ++ " was not found." ∧
    get_products 1 store1 =
      ({ status := 200, body := Product.serialize 1 exampleFields, location := none }, store1) :=
  ⟨(c4_get_products_contract 9999 store0).1 rfl, rfl,
   (c4_get_products_contract 1 store1).2 exampleFields rfl⟩

/-- C6: deserializing the serialization of any product fields under any
assigned id reproduces exactly the same name, sku, description, price and
image_url (the id key of the wire form is ignored by deserialize). -/
theorem c6_serialize_deserialize_roundtrip (n : Nat) (p : ProductFields) :
    Product.deserialize (Product.serialize n p) = .ok p := rfl

/-- C8: DELETE answers 204 for every id — also when no product with that id
exists — removes the durable record when one is present, and leaves the
store unchanged when none is. -/
theorem c8_delete_products_idempotent (product_id : Nat) (s : Store) :
    (delete_products product_id s).1.status = 204 ∧
    (delete_products product_id s).2.find product_id = none ∧
    (s.find product_id = none → (delete_products product_id s).2 = s) := by
  refine ⟨rfl, findRow_deleteRows product_id s.rows, fun h => ?_⟩
  show ({ rows := deleteRows product_id s.rows, nextId := s.nextId } : Store) = s
  rw [deleteRows_absent product_id s.rows h]

/-- C8 witness: DELETE of id 1 on a store holding it answers 204 and removes
the record; DELETE of id 1 on the empty store answers 204 and changes
nothing. -/
theorem c8_witness :
    (delete_products 1 store1).1.status = 204 ∧
    (delete_products 1 store1).2.find 1 = none ∧
    (delete_products 1 store0).2 = store0 :=
  ⟨(c8_delete_products_idempotent 1 store1).1,
   (c8_delete_products_idempotent 1 store1).2.1,
   (c8_delete_products_idempotent 1 store0).2.2 rfl⟩

/-- C9: the Index handler answers 200 with the fixed api_details document and
no state change, identically for every request and store; the document
carries the service name, version, description, status flag, and the
enumerated method, path, description entries of every supported operation. -/
theorem c9_index_fixed (req req2 : Request) (s s2 : Store) :
    index req s = ({ status := 200, body := api_details, location := none }, s) ∧
    (index req s).1 = (index req2 s2).1 ∧
    api_details.getField "name" = some (.jstr "Products REST API Service") ∧
    api_details.getField "version" = some (.jstr "0.1.0") ∧
    api_details.getField "description" =
      some (.jstr "This is the products service API. Below is how you use it.") ∧
    api_details.getField "status" = some (.jstr "online") ∧
    api_details.getField "endpoints" = some (.jarr
      [endpointEntry "POST" "/products"
         "Creates a new product with the data in the body that is posted",
       endpointEntry "GET" "/products/<product_id>"
         "Returns a product based on its id",
       endpointEntry "GET" "/products"
         "Returns a list of all products",
       endpointEntry "PUT" "/products/<product_id>"
         "Updates a product based on its id with the data in the body that is posted",
       endpointEntry "DELETE" "/products/<product_id>"
         "Deletes a product based on its id"]) :=
  ⟨rfl, rfl, rfl, rfl, rfl, rfl, rfl⟩

/-- C10: when the guard rejects a POST, the response is the guard error
itself (status 415), the store is unchanged — no record is created — and the
outcome is the same whatever the body is, so the body is never parsed or
deserialized. -/
theorem c10_create_products_guard_first (req : Request) (s : Store) (err : Response)
    (h : check_content_type "application/json" req = some err) :
    create_products req s = (err, s) ∧
    err.status = 415 ∧
    ∀ b, create_products { headers := req.headers, body := b, urlRoot := req.urlRoot } s
      = (err, s) := by
  refine ⟨?_, ?_, fun b => ?_⟩
  · unfold create_products
    rw [h]
  · rw [check_content_type_some_eq _ _ _ h]; rfl
  · have h2 : check_content_type "application/json"
        { headers := req.headers, body := b, urlRoot := req.urlRoot } = some err := h
    unfold create_products
    rw [h2]

/-- C10 witness: a POST with no Content-Type header on the empty store is
rejected with the 415 guard error, the store stays empty, and swapping in a
body that is not even valid JSON changes nothing. -/
theorem c10_witness :
    create_products reqNoContentType store0 =
      (errorResponse 415 "Content-Type must be application/json", store0) ∧
    (errorResponse 415 "Content-Type must be application/json").status = 415 ∧
    create_products { headers := reqNoContentType.headers, body := Body.notJson,
                      urlRoot := reqNoContentType.urlRoot } store0 =
      (errorResponse 415 "Content-Type must be application/json", store0) :=
  ⟨(c10_create_products_guard_first reqNoContentType store0 _ rfl).1,
   (c10_create_products_guard_first reqNoContentType store0 _ rfl).2.1,
   (c10_create_products_guard_first reqNoContentType store0 _ rfl).2.2 Body.notJson⟩

/-- C5: a PUT on an existing id with a valid body answers 200 with the
serialized updated product whose id is the path id — never an id carried by
the body, which deserialize ignores — and the durable record under that id
now holds exactly the fields supplied by the body. -/
theorem c5_update_products_success (product_id : Nat) (req : Request) (s : Store)
    (p0 fields : ProductFields) (data : Json)
    (hfind : s.find product_id = some p0)
    (hct : check_content_type "application/json" req = none)
    (hbody : req.body = .json data)
    (hde : Product.deserialize data = .ok fields) :
    (update_products product_id req s).1 =
      { status := 200, body := Product.serialize product_id fields, location := none } ∧
    (update_products product_id req s).2.find product_id = some fields := by
  constructor
  · simp [update_products, hfind, hct, hbody, hde]
  · have hfr : findRow product_id s.rows = some p0 := hfind
    simp [update_products, Store.find, hfr, hct, hbody, hde, Store.update]
    exact findRow_updateRows product_id fields s.rows (by rw [hfr]; rfl)

/-- C5 witness: updating id 1 with a body that even carries id 42 answers 200
with a product whose id is still 1, and the record under id 1 now holds the
fields of the body. -/
theorem c5_witness :
    (update_products 1 updateRequest store1).1 =
      { status := 200, body := Product.serialize 1 updatedFields, location := none } ∧
    (update_products 1 updateRequest store1).2.find 1 = some updatedFields :=
  c5_update_products_success 1 updateRequest store1 exampleFields updatedFields
    updatePayload rfl rfl rfl rfl

/-- C7 counterexample: a PUT with no Content-Type header on an id with no
product answers 404, not the claimed 415 (and not 400), because the
not-found lookup aborts before the Content-Type guard runs. -/
theorem c7_counterexample :
    reqNoContentType.headers.lookup "Content-Type" = none ∧
    (update_products 1 reqNoContentType store0).1.status = 404 ∧
    (update_products 1 reqNoContentType store0).1.status ≠ 415 ∧
    (update_products 1 reqNoContentType store0).1.status ≠ 400 := by
  refine ⟨rfl, rfl, ?_, ?_⟩ <;> decide

/-- C7 (amended): for every POST, and for every PUT whose id exists, a
missing or wrong Content-Type header yields exactly 415, and a correct
header with a body that is not valid JSON yields exactly 400; both handlers
never answer any 5xx status on any request. -/
theorem c7_client_error_statuses (req : Request) (s : Store) (product_id : Nat) :
    (req.headers.lookup "Content-Type" ≠ some "application/json" →
      (create_products req s).1.status = 415) ∧
    (req.headers.lookup "Content-Type" = some "application/json" →
      (∀ d, req.body ≠ Body.json d) →
      (create_products req s).1.status = 400) ∧
    ((s.find product_id).isSome →
      req.headers.lookup "Content-Type" ≠ some "application/json" →
      (update_products product_id req s).1.status = 415) ∧
    ((s.find product_id).isSome →
      req.headers.lookup "Content-Type" = some "application/json" →
      (∀ d, req.body ≠ Body.json d) →
      (update_products product_id req s).1.status = 400) ∧
    (create_products req s).1.status < 500 ∧
    (update_products product_id req s).1.status < 500 := by
  refine ⟨fun h => ?_, fun h hb => ?_, fun hf h => ?_, fun hf h hb => ?_, ?_, ?_⟩
  · have hct := check_content_type_fails "application/json" req h
    simp [create_products, hct, errorResponse]
  · have hct := check_content_type_passes "application/json" req h
    cases hbody : req.body with
    | json data => exact absurd hbody (hb data)
    | empty => simp [create_products, hct, hbody, errorResponse]
    | notJson => simp [create_products, hct, hbody, errorResponse]
  · cases hfe : s.find product_id with
    | none => rw [hfe] at hf; simp at hf
    | some p0 =>
      have hct := check_content_type_fails "application/json" req h
      simp [update_products, hfe, hct, errorResponse]
  · cases hfe : s.find product_id with
    | none => rw [hfe] at hf; simp at hf
    | some p0 =>
      have hct := check_content_type_passes "application/json" req h
      cases hbody : req.body with
      | json data => exact absurd hbody (hb data)
      | empty => simp [update_products, hfe, hct, hbody, errorResponse]
      | notJson => simp [update_products, hfe, hct, hbody, errorResponse]
  · rcases create_products_status_cases req s with h | h | h <;> omega
  · rcases update_products_status_cases product_id req s with h | h | h | h <;> omega

/-- C7 witness: the amended contract at concrete requests — missing header on
POST gives 415, bad body on POST gives 400, same for PUT on the existing id
1, and two arbitrary calls answer below 500. -/
theorem c7_witness :
    (create_products reqNoContentType store0).1.status = 415 ∧
    (create_products reqBadBody store0).1.status = 400 ∧
    (update_products 1 reqNoContentType store1).1.status = 415 ∧
    (update_products 1 reqBadBody store1).1.status = 400 ∧
    (create_products exampleRequest store0).1.status < 500 ∧
    (update_products 9999 reqNoContentType store0).1.status < 500 :=
  ⟨(c7_client_error_statuses reqNoContentType store0 1).1 (by decide),
   (c7_client_error_statuses reqBadBody store0 1).2.1 rfl
     (fun d h => Body.noConfusion h),
   (c7_client_error_statuses reqNoContentType store1 1).2.2.1 rfl (by decide),
   (c7_client_error_statuses reqBadBody store1 1).2.2.2.1 rfl rfl
     (fun d h => Body.noConfusion h),
   (c7_client_error_statuses exampleRequest store0 1).2.2.2.2.1,
   (c7_client_error_statuses reqNoContentType store0 9999).2.2.2.2.2⟩

end Products
